import Mathlib

/-!
Shallow embedding of the dxf2elmt conversion core, centred on the
dynamic-text module (`src/qelmt/dynamictext.rs`) and the library entry
point (`src/lib.rs`).

Embedding conventions:
* Rust `f64` fields are modelled as exact rationals (`ℚ`); the formulas
  under verification are arithmetic identities of the source expressions.
* Rust `String`/`&str` values are modelled as `String`/`List Char`;
  scanning loops over `chars()` become structural recursions on `List Char`.
* `u32` statistic counters are modelled as `Nat` (they count elements of a
  finite entity list).
* Effects (file loading, wall-clock timing, UUID generation, XML file
  output) are externalised: the parsed entity kinds, the elapsed time, the
  generated identifier and the rendered markup are parameters of the
  embedded functions, mirroring the boundary described by the source.
-/

set_option autoImplicit false

namespace Dxf2Elmt

/-- Horizontal alignment, variants as used by `dynamictext.rs`
(`HAlignment::Left/Center/Right`; declared in the `qelmt` module root). -/
inductive HAlignment
  | Left
  | Center
  | Right
deriving DecidableEq, Repr

/-- Vertical alignment. Modelled from the spec: `VAlignment`
{Top, Middle, Bottom} is declared in the `qelmt` module root, which is not
under `src/`. -/
inductive VAlignment
  | Top
  | Middle
  | Bottom
deriving DecidableEq, Repr

/-- Font information: point size and family name (`FontInfo` of the
`qelmt` module root; its fields are those used by `dynamictext.rs`). -/
structure FontInfo where
  family : String
  point_size : ℚ
deriving DecidableEq, Repr

/-- Modelled from the spec: `FontInfo`'s `Default` implementation lives in
the `qelmt` module root, absent from `src/`; the spec says the family
"defaults to a standard family". The concrete name is not given by the
spec; `"Sans Serif"` stands for that standard (nonempty) family name, and
the default point size is irrelevant here because `DTextBuilder::build`
always overwrites it with the entity text height. -/
def FontInfo.default : FontInfo := { family := "Sans Serif", point_size := 9 }

/-- The `DynamicText` element of `dynamictext.rs`, field for field.
`uuid` is the identifier freshly generated per element (modelled as an
opaque number), `color` is the hex colour rendered as a string. -/
structure DynamicText where
  text : String
  info_name : Option String
  x : ℚ
  y : ℚ
  z : ℚ
  rotation : ℚ
  uuid : Nat
  h_alignment : HAlignment
  font : FontInfo
  text_from : String
  v_alignment : VAlignment
  frame : Bool
  text_width : Int
  keep_visual_rotation : Bool
  color : String
  reference_rectangle_width : ℚ
deriving Repr

/-- `impl ScaleEntity for DynamicText`, `fn scale`: multiply `x` by the
horizontal factor, `y` by the vertical factor, and the font point size by
the horizontal factor; no other field is touched. -/
def DynamicText.scale (t : DynamicText) (fact_x fact_y : ℚ) : DynamicText :=
  { t with
    x := t.x * fact_x
    y := t.y * fact_y
    font := { t.font with point_size := t.font.point_size * fact_x } }

/-- The stacked-block heuristic of `normalize_mtext`'s `\S` branch: find
the first `^` or `#` in the collected block, and if present replace it by
`/` (`buf.split_at(pos)` with the separator dropped); otherwise emit the
block as collected. -/
def stackedRewrite (buf : List Char) : List Char :=
  match buf.findIdx? (fun c => c == '^' || c == '#') with
  | some pos => buf.take pos ++ '/' :: buf.drop (pos + 1)
  | none => buf

/-- Scanner state of `normalize_mtext`. The Rust function drives a
`Peekable<Chars>` through a main loop with two inner draining loops; the
states are: the main loop (`normal`), just after a backslash (`esc`),
inside a `\f`/`\H`/`\W` block being discarded (`skip`), and inside a `\S`
block collecting its content (`stack buf`). -/
inductive MMode
  | normal
  | esc
  | skip
  | stack (buf : List Char)

/-- One-pass transcription of the body of `normalize_mtext`
(`src/qelmt/dynamictext.rs`). In the unrecognized-escape arm the Rust
code emits `\` and leaves the offending character unconsumed for the main
loop; here that character's main-loop treatment (a grouping brace is
dropped, anything else — the recognized escape heads having been ruled
out, it cannot be a backslash — is copied) is inlined so that the
recursion stays structural on the character list. -/
def normRun : MMode → List Char → List Char
  | .normal, [] => []
  | .normal, c :: rest =>
    if c = '{' ∨ c = '}' then normRun .normal rest
    else if c = '\\' then normRun .esc rest
    else c :: normRun .normal rest
  | .esc, [] => ['\\']
  | .esc, c :: rest =>
    if c = 'P' then '\n' :: normRun .normal rest
    else if c = '~' then ' ' :: normRun .normal rest
    else if c = '\\' then '\\' :: normRun .normal rest
    else if c = 'f' ∨ c = 'H' ∨ c = 'W' then normRun .skip rest
    else if c = 'S' then normRun (.stack []) rest
    else if c = '{' ∨ c = '}' then '\\' :: normRun .normal rest
    else '\\' :: c :: normRun .normal rest
  | .skip, [] => []
  | .skip, c :: rest =>
    if c = ';' then normRun .normal rest
    else normRun .skip rest
  | .stack buf, [] => stackedRewrite buf
  | .stack buf, c :: rest =>
    if c = ';' then stackedRewrite buf ++ normRun .normal rest
    else normRun (.stack (buf ++ [c])) rest

/-- `fn normalize_mtext(input: &str) -> String` of
`src/qelmt/dynamictext.rs`: strip MTEXT inline formatting codes. -/
def normalize_mtext (input : String) : String :=
  String.mk (normRun .normal input.data)

/-- Drop the given characters from both ends of a list (the behaviour of
Rust `str::trim` / `str::trim_matches` restricted to a character
predicate). -/
def trimEndsBy (p : Char → Bool) (l : List Char) : List Char :=
  ((l.dropWhile p).reverse.dropWhile p).reverse

/-- The block-scanning loop of `extract_mtext_font`: find the first
`\f` occurrence (the Rust loop requires at least one byte after the `f`,
hence the three-element pattern) and return the characters from there up
to the first `;` (or the end of the input). -/
def firstFBlock : List Char → Option (List Char)
  | a :: b :: c :: rest =>
    if a = '\\' ∧ b = 'f' then some ((c :: rest).takeWhile (fun d => d != ';'))
    else firstFBlock (b :: c :: rest)
  | _ => none

/-- `fn extract_mtext_font(input: &str) -> Option<String>` of
`src/qelmt/dynamictext.rs`: take the first `\f...;` block, keep the part
before the first `|`, trim whitespace, then trim `{`/`}`; return it only
if nonempty at each stage. (Rust `str::trim` removes Unicode whitespace;
`Char.isWhitespace` covers the ASCII cases, the only ones exercised
here.) -/
def extract_mtext_font (l : List Char) : Option (List Char) :=
  match firstFBlock l with
  | none => none
  | some block =>
    let family := trimEndsBy Char.isWhitespace (block.takeWhile (fun d => d != '|'))
    if family = [] then none
    else
      let family2 := trimEndsBy (fun c => c == '{' || c == '}') family
      if family2 = [] then none else some family2

/-- Rust `f64::round` (half away from zero) applied to `rotation.abs()`,
followed by `as i64`: since the argument is nonnegative this is
`⌊|r| + 1/2⌋`. -/
def roundAbs (r : ℚ) : ℤ :=
  Int.floor (|r| + 1 / 2)

/-- The rotation expression of `DTextBuilder::build`:
`if rotation.abs().round() as i64 % 360 != 0 { rotation - 180.0 } else { 0.0 }`. -/
def normRotation (r : ℚ) : ℚ :=
  if roundAbs r % 360 ≠ 0 then r - 180 else 0

/-- The fields of a `dxf::entities::MText` record consumed by
`DTextBuilder::build` (an external parser type). The attachment-point to
alignment lookups (`HAlignment::from` / `VAlignment::from`) live in the
`qelmt` module root, outside `src/`; the already-converted alignments are
therefore carried as fields here — no claim depends on the lookup table
itself. -/
structure MTextInput where
  x : ℚ
  y : ℚ
  z : ℚ
  rotation_angle : ℚ
  text_style_name : String
  initial_text_height : ℚ
  text : String
  extended_text : List String
  reference_rectangle_width : ℚ
  h_alignment : HAlignment
  v_alignment : VAlignment

/-- The `MText` arm of `DTextBuilder::build` (`src/qelmt/dynamictext.rs`):
the raw text is the concatenation of the extended-text chunks followed by
the plain text field; the stored value is its normalization; the Y
coordinate is negated at read time; the rotation goes through
`normRotation`; the font takes the entity text height as point size and,
when `extract_mtext_font` finds a family in the raw text, that family,
otherwise the default one (the `STANDARD`/other style branches of the
source build the identical `FontInfo`). The freshly generated UUID and
the optional colour (`self.color.unwrap_or(BLACK)`) enter as
parameters. -/
def buildFromMText (m : MTextInput) (uuid : Nat) (color : Option String) : DynamicText :=
  let raw := String.join m.extended_text ++ m.text
  { x := m.x
    y := -m.y
    z := m.z
    rotation := normRotation m.rotation_angle
    uuid := uuid
    font :=
      let f : FontInfo :=
        if m.text_style_name = "STANDARD" then
          { FontInfo.default with point_size := m.initial_text_height }
        else
          { FontInfo.default with point_size := m.initial_text_height }
      match extract_mtext_font raw.data with
      | some fam => { f with family := String.mk fam }
      | none => f
    reference_rectangle_width := m.reference_rectangle_width
    h_alignment := m.h_alignment
    v_alignment := m.v_alignment
    text_from := "UserText"
    frame := false
    text_width := -1
    color := color.getD "#000000"
    text := normalize_mtext raw
    keep_visual_rotation := false
    info_name := none }

/-- The effective text width of `impl From<&DynamicText> for XMLElement`:
the declared reference rectangle width when it exceeds `2.0`, else the
guess `grapheme-count * point-size * 0.75`. Grapheme segmentation is
performed by the external `unicode_segmentation` crate, so the grapheme
count of `txt.text` is a parameter. -/
def xmlTxtWidth (txt : DynamicText) (grapheme_count : Nat) : ℚ :=
  if txt.reference_rectangle_width > 2 then txt.reference_rectangle_width
  else (grapheme_count : ℚ) * txt.font.point_size * 0.75

/-- The serialized horizontal anchor `x_pos` of
`impl From<&DynamicText> for XMLElement` (before the `two_dec` display
formatting): `txt.x + 0.5 - (pt_size / 8.0) - 4.05`, shifted left by half
the width for centre alignment and by the full width for right
alignment. -/
def xmlXPos (txt : DynamicText) (grapheme_count : Nat) : ℚ :=
  let x_pos := txt.x + 0.5 - (txt.font.point_size / 8) - 4.05
  match txt.h_alignment with
  | .Left => x_pos
  | .Center => x_pos - xmlTxtWidth txt grapheme_count / 2
  | .Right => x_pos - xmlTxtWidth txt grapheme_count

/-- The serialized vertical anchor `y_pos` of
`impl From<&DynamicText> for XMLElement`:
`txt.y + 0.5 - (7.0 / 5.0 * pt_size + 26.0 / 5.0) + pt_size`. -/
def xmlYPos (txt : DynamicText) : ℚ :=
  txt.y + 0.5 - (7 / 5 * txt.font.point_size + 26 / 5) + txt.font.point_size

/-- Spec-side definition, following the spec's words for comparison with
`xmlTxtWidth`: "w = effective text width (declared reference width if it
exceeds a 2.0-unit threshold, else estimated as grapheme-count ×
point-size × 0.75)". -/
def specEffectiveWidth (refWidth s : ℚ) (graphemeCount : Nat) : ℚ :=
  if refWidth > 2 then refWidth else (graphemeCount : ℚ) * s * (3 / 4)

/-- Spec-side definition, following the spec's words for comparison with
`xmlXPos`: "x_base = x + 0.5 − s/8 − 4.05; apply x_base unchanged for
left alignment, x_base − w/2 for center, x_base − w for right". -/
def specXAnchor (x s w : ℚ) : HAlignment → ℚ
  | .Left => x + 1 / 2 - s / 8 - 81 / 20
  | .Center => (x + 1 / 2 - s / 8 - 81 / 20) - w / 2
  | .Right => (x + 1 / 2 - s / 8 - 81 / 20) - w

/-- Spec-side definition, following the spec's words for comparison with
`xmlYPos`: "Vertical anchor: y + 0.5 − (7/5·s + 26/5) + s". -/
def specYAnchor (y s : ℚ) : ℚ :=
  y + 1 / 2 - (7 / 5 * s + 26 / 5) + s

/-- The entity kinds distinguished by the counting loop of
`convert_dxf_file` (`src/lib.rs`); `Other` stands for every kind caught
by the wildcard arm. -/
inductive EntityKind
  | Circle
  | Line
  | Arc
  | Spline
  | Text
  | Ellipse
  | Polyline
  | LwPolyline
  | Solid
  | Insert
  | Other
deriving DecidableEq, Repr

/-- `struct ConversionStats` of `src/lib.rs`. -/
structure ConversionStats where
  circles : Nat
  lines : Nat
  arcs : Nat
  splines : Nat
  texts : Nat
  ellipses : Nat
  polylines : Nat
  lwpolylines : Nat
  solids : Nat
  blocks : Nat
  unsupported : Nat
  elapsed_ms : Nat
deriving DecidableEq, Repr

/-- `struct ConversionResult` of `src/lib.rs`. -/
structure ConversionResult where
  success : Bool
  message : String
  stats : Option ConversionStats
  xml_content : Option String
deriving DecidableEq, Repr

/-- `struct ConversionOptions` of `src/lib.rs`. -/
structure ConversionOptions where
  spline_step : Nat
  verbose : Bool
  info : Bool
deriving DecidableEq, Repr

/-- `impl Default for ConversionOptions` of `src/lib.rs`. -/
def ConversionOptions.default : ConversionOptions :=
  { spline_step := 20, verbose := false, info := false }

/-- The per-kind tally of the `for_each` counting loop of
`convert_dxf_file`: each `EntityType::…` arm increments exactly the
counter of its kind, so each final counter is the number of entities of
that kind. -/
def countKind (entities : List EntityKind) (k : EntityKind) : Nat :=
  (entities.filter (fun e => e = k)).length

/-- `pub fn convert_dxf_file` of `src/lib.rs`, with its effects
externalised: the drawing is already parsed into its entity kinds, the
friendly file name (the path's stem), the elapsed milliseconds and the
rendered XML text are parameters (file loading, timing and file creation
are performed outside the embedded computation; `options.info` is only
forwarded to `file_writer::create_file`). The returned value assembles
`success`, the summary message, `stats` and the verbose-only
`xml_content` exactly as the source does. -/
def convert_dxf_file (entities : List EntityKind) (options : ConversionOptions)
    (friendly_file_name : String) (elapsed_ms : Nat) (out_xml : String) :
    ConversionResult :=
  { success := true
    message := "Successfully converted " ++ friendly_file_name
    stats := some
      { circles := countKind entities .Circle
        lines := countKind entities .Line
        arcs := countKind entities .Arc
        splines := countKind entities .Spline
        texts := countKind entities .Text
        ellipses := countKind entities .Ellipse
        polylines := countKind entities .Polyline
        lwpolylines := countKind entities .LwPolyline
        solids := countKind entities .Solid
        blocks := countKind entities .Insert
        unsupported := countKind entities .Other
        elapsed_ms := elapsed_ms }
    xml_content := if options.verbose then some out_xml else none }

/-- A minimal MText record with the given rotation; the remaining fields
are inert for the rotation claims. -/
def mtextRot (r : ℚ) : MTextInput :=
  { x := 0, y := 0, z := 0, rotation_angle := r,
    text_style_name := "STANDARD", initial_text_height := 9,
    text := "A", extended_text := [], reference_rectangle_width := 0,
    h_alignment := .Left, v_alignment := .Top }

/-- The spec's font-inference example: raw MTEXT text
`{\fGaramond|b0|i1|c0|p18;Sofrel}`. -/
def garamondInput : MTextInput :=
  { x := 0, y := 0, z := 0, rotation_angle := 0,
    text_style_name := "STANDARD", initial_text_height := 9,
    text := "\x7b\\fGaramond|b0|i1|c0|p18;Sofrel\x7d", extended_text := [],
    reference_rectangle_width := 0, h_alignment := .Left, v_alignment := .Top }

/-- An MText record whose raw text `\f ;X` contains a `\f` block whose
part before the first `|` trims to the empty string. -/
def fontEmptyInput : MTextInput :=
  { x := 0, y := 0, z := 0, rotation_angle := 0,
    text_style_name := "STANDARD", initial_text_height := 9,
    text := "\\f ;X", extended_text := [],
    reference_rectangle_width := 0, h_alignment := .Left, v_alignment := .Top }

/-- An MText record whose raw text contains no `\f` block at all. -/
def plainInput : MTextInput :=
  { x := 0, y := 0, z := 0, rotation_angle := 0,
    text_style_name := "STANDARD", initial_text_height := 9,
    text := "Hello", extended_text := [],
    reference_rectangle_width := 0, h_alignment := .Left, v_alignment := .Top }

/-! ### Helper lemmas -/

theorem normRun_skip_append (block rest : List Char) (h : ';' ∉ block) :
    normRun .skip (block ++ ';' :: rest) = normRun .normal rest := by
  induction block with
  | nil => simp [normRun]
  | cons c bl ih =>
    have hc : c ≠ ';' := fun hc => h (hc ▸ List.mem_cons_self c bl)
    have hbl : ';' ∉ bl := fun hm => h (List.mem_cons_of_mem c hm)
    simp [normRun, hc, ih hbl]

theorem normRun_stack_append (block : List Char) (rest buf : List Char) (h : ';' ∉ block) :
    normRun (.stack buf) (block ++ ';' :: rest) =
      stackedRewrite (buf ++ block) ++ normRun .normal rest := by
  induction block generalizing buf with
  | nil => simp [normRun]
  | cons c bl ih =>
    have hc : c ≠ ';' := fun hc => h (hc ▸ List.mem_cons_self c bl)
    have hbl : ';' ∉ bl := fun hm => h (List.mem_cons_of_mem c hm)
    simp [normRun, hc, ih (buf ++ [c]) hbl]

theorem normRun_plain (l : List Char) (h1 : '\\' ∉ l) (h2 : '{' ∉ l) (h3 : '}' ∉ l) :
    normRun .normal l = l := by
  induction l with
  | nil => rfl
  | cons c tl ih =>
    have hc1 : c ≠ '\\' := fun hc => h1 (hc ▸ List.mem_cons_self c tl)
    have hc2 : c ≠ '{' := fun hc => h2 (hc ▸ List.mem_cons_self c tl)
    have hc3 : c ≠ '}' := fun hc => h3 (hc ▸ List.mem_cons_self c tl)
    have ht1 : '\\' ∉ tl := fun hm => h1 (List.mem_cons_of_mem c hm)
    have ht2 : '{' ∉ tl := fun hm => h2 (List.mem_cons_of_mem c hm)
    have ht3 : '}' ∉ tl := fun hm => h3 (List.mem_cons_of_mem c hm)
    simp [normRun, hc1, hc2, hc3, ih ht1 ht2 ht3]

theorem intFloor_half : Int.floor ((1 : ℚ) / 2) = 0 := by
  rw [Int.floor_eq_zero_iff]
  constructor <;> norm_num

theorem roundAbs_intCast (n : ℤ) : roundAbs ((n : ℚ)) = |n| := by
  rw [roundAbs, ← Int.cast_abs, add_comm, Int.floor_add_int, intFloor_half, zero_add]

theorem roundAbs_360 : roundAbs 360 = 360 := by
  have h := roundAbs_intCast 360
  norm_num at h
  exact h

theorem roundAbs_neg360 : roundAbs (-360) = 360 := by
  have h := roundAbs_intCast (-360)
  norm_num at h
  exact h

theorem roundAbs_45 : roundAbs 45 = 45 := by
  have h := roundAbs_intCast 45
  norm_num at h
  exact h

theorem normRotation_multiple (k : ℤ) : normRotation (360 * (k : ℚ)) = 0 := by
  have hcast : (360 : ℚ) * (k : ℚ) = ((360 * k : ℤ) : ℚ) := by push_cast; ring
  have habs : roundAbs ((360 : ℚ) * (k : ℚ)) = 360 * |k| := by
    rw [hcast, roundAbs_intCast, abs_mul]
    norm_num
  rw [normRotation, habs]
  simp [Int.mul_emod_right]

theorem extract_mtext_font_ne_nil (l : List Char) (fam : List Char)
    (h : extract_mtext_font l = some fam) : fam ≠ [] := by
  rw [extract_mtext_font] at h
  cases hb : firstFBlock l with
  | none => rw [hb] at h; simp at h
  | some block =>
    rw [hb] at h
    simp only at h
    split at h
    · simp at h
    · split at h
      · simp at h
      · next hne => simp at h; exact h ▸ hne

/-! ### Claim theorems -/

/-- C1: rich-text normalization discards grouping braces, maps `\P` to a
newline, `\~` to a space, `\\` to a single backslash, discards a
`\f`/`\H`/`\W` control block from the code letter through the terminating
`;`, and copies every ordinary (non-brace, non-backslash) character
through unchanged. -/
theorem c1_normalize_mtext_components :
    (∀ l, normRun .normal ('{' :: l) = normRun .normal l) ∧
    (∀ l, normRun .normal ('}' :: l) = normRun .normal l) ∧
    (∀ l, normRun .normal ('\\' :: 'P' :: l) = '\n' :: normRun .normal l) ∧
    (∀ l, normRun .normal ('\\' :: '~' :: l) = ' ' :: normRun .normal l) ∧
    (∀ l, normRun .normal ('\\' :: '\\' :: l) = '\\' :: normRun .normal l) ∧
    (∀ (d : Char) (block rest : List Char), d = 'f' ∨ d = 'H' ∨ d = 'W' → ';' ∉ block →
      normRun .normal ('\\' :: d :: (block ++ ';' :: rest)) = normRun .normal rest) ∧
    (∀ (c : Char) (l : List Char), c ≠ '{' → c ≠ '}' → c ≠ '\\' →
      normRun .normal (c :: l) = c :: normRun .normal l) := by
  refine ⟨?_, ?_, ?_, ?_, ?_, ?_, ?_⟩
  · intro l; simp [normRun]
  · intro l; simp [normRun]
  · intro l; simp [normRun]
  · intro l; simp [normRun]
  · intro l; simp [normRun]
  · intro d block rest hd hblock
    have hd1 : d ≠ 'P' := by rcases hd with h | h | h <;> simp [h]
    have hd2 : d ≠ '~' := by rcases hd with h | h | h <;> simp [h]
    have hd3 : d ≠ '\\' := by rcases hd with h | h | h <;> simp [h]
    simp only [normRun, hd1, hd2, hd3]
    norm_num
    rw [if_pos hd]
    exact normRun_skip_append block rest hblock
  · intro c l h1 h2 h3
    simp [normRun, h1, h2, h3]

/-- C1 witness: a `\f` block `a` terminated by `;` is discarded in front
of the remaining text `x`. -/
theorem c1_witness :
    normRun .normal ('\\' :: 'f' :: (['a'] ++ ';' :: ['x'])) = normRun .normal ['x'] :=
  c1_normalize_mtext_components.2.2.2.2.2.1 'f' ['a'] ['x'] (Or.inl rfl) (by decide)

/-- C4: a `\S` stacked block terminated by `;` is scanned for the first
`^` or `#`; if one occurs at position `pos`, the block is rewritten as
its left part, `/`, its right part; otherwise the raw block content is
emitted unchanged; concretely `\S1^2;` normalizes to `1/2`. -/
theorem c4_stacked_block :
    (∀ (block rest : List Char) (pos : Nat), ';' ∉ block →
      block.findIdx? (fun c => c == '^' || c == '#') = some pos →
      normRun .normal ('\\' :: 'S' :: (block ++ ';' :: rest)) =
        (block.take pos ++ '/' :: block.drop (pos + 1)) ++ normRun .normal rest) ∧
    (∀ (block rest : List Char), ';' ∉ block →
      block.findIdx? (fun c => c == '^' || c == '#') = none →
      normRun .normal ('\\' :: 'S' :: (block ++ ';' :: rest)) =
        block ++ normRun .normal rest) ∧
    normalize_mtext "\\S1^2;" = "1/2" := by
  refine ⟨?_, ?_, ?_⟩
  · intro block rest pos hblock hfind
    have hstep : normRun .normal ('\\' :: 'S' :: (block ++ ';' :: rest)) =
        normRun (.stack []) (block ++ ';' :: rest) := by
      simp [normRun]
    rw [hstep, normRun_stack_append block rest [] hblock]
    simp [stackedRewrite, hfind]
  · intro block rest hblock hfind
    have hstep : normRun .normal ('\\' :: 'S' :: (block ++ ';' :: rest)) =
        normRun (.stack []) (block ++ ';' :: rest) := by
      simp [normRun]
    rw [hstep, normRun_stack_append block rest [] hblock]
    simp [stackedRewrite, hfind]
  · decide

/-- C4 witness: the block `1^2` with the separator at position 1 is
rewritten to `1/2` in front of the remaining text `x`. -/
theorem c4_witness :
    normRun .normal ('\\' :: 'S' :: (['1', '^', '2'] ++ ';' :: ['x'])) =
      (['1', '^', '2'].take 1 ++ '/' :: ['1', '^', '2'].drop 2) ++ normRun .normal ['x'] :=
  c4_stacked_block.1 ['1', '^', '2'] ['x'] 1 (by decide) (by decide)

/-- C7 counterexample: `normalize_mtext` is not idempotent on its own
outputs. The input `\\P` (escaped backslash, then `P`) normalizes to the
output `\P`, and normalizing that output again yields a newline instead
of returning it unchanged. -/
theorem c7_counterexample :
    normalize_mtext "\\\\P" = "\\P" ∧
    normalize_mtext (normalize_mtext "\\\\P") ≠ normalize_mtext "\\\\P" := by
  constructor
  · decide
  · decide

/-- C7 amended: normalization is the identity on already-plain text —
any string containing no backslash and no grouping brace — but not on
every normalization output, since outputs may contain literal
backslashes (for instance from the `\\` escape) that a second pass
reinterprets. -/
theorem c7_amended (s : String)
    (h1 : '\\' ∉ s.data) (h2 : '{' ∉ s.data) (h3 : '}' ∉ s.data) :
    normalize_mtext s = s := by
  rw [normalize_mtext, normRun_plain s.data h1 h2 h3]

/-- C7 witness: plain text is returned unchanged. -/
theorem c7_witness : normalize_mtext "abc" = "abc" :=
  c7_amended "abc" (by decide) (by decide) (by decide)

/-- C9: `normalize_mtext` never rejects an input — a backslash followed
by an unrecognized code character is emitted as a literal backslash with
the following character left unconsumed for the ordinary scan, and a
lone trailing backslash is emitted literally. -/
theorem c9_unknown_escape :
    (∀ (c : Char) (l : List Char), c ≠ 'P' → c ≠ '~' → c ≠ '\\' → c ≠ 'f' → c ≠ 'H' →
      c ≠ 'W' → c ≠ 'S' →
      normRun .normal ('\\' :: c :: l) = '\\' :: normRun .normal (c :: l)) ∧
    normalize_mtext "\\" = "\\" := by
  constructor
  · intro c l h1 h2 h3 h4 h5 h6 h7
    by_cases hb : c = '{' ∨ c = '}'
    · simp [normRun, h1, h2, h3, h4, h5, h6, h7, hb]
    · simp [normRun, h1, h2, h3, h4, h5, h6, h7, hb]
  · decide

/-- C9 witness: the unrecognized escape `\x` passes the backslash through
and rescans `x` as an ordinary character. -/
theorem c9_witness :
    normRun .normal ('\\' :: 'x' :: []) = '\\' :: normRun .normal ['x'] :=
  c9_unknown_escape.1 'x' [] (by decide) (by decide) (by decide) (by decide) (by decide)
    (by decide) (by decide)

/-- C2: building a DynamicText from a text entity with rotation exactly
360 or −360 degrees stores rotation 0, and with rotation 45 degrees
stores rotation −135 (45 − 180). -/
theorem c2_rotation_examples :
    (buildFromMText (mtextRot 360) 0 none).rotation = 0 ∧
    (buildFromMText (mtextRot (-360)) 0 none).rotation = 0 ∧
    (buildFromMText (mtextRot 45) 0 none).rotation = -135 := by
  refine ⟨?_, ?_, ?_⟩
  · show normRotation 360 = 0
    rw [normRotation, roundAbs_360]
    norm_num
  · show normRotation (-360) = 0
    rw [normRotation, roundAbs_neg360]
    norm_num
  · show normRotation 45 = -135
    rw [normRotation, roundAbs_45]
    norm_num

/-- C3 counterexample: at input rotation 45 the built DynamicText stores
−135, which is neither the input rotation passed through unchanged nor a
value in the [0, 360) range. -/
theorem c3_counterexample :
    (buildFromMText (mtextRot 45) 0 none).rotation = -135 ∧
    (buildFromMText (mtextRot 45) 0 none).rotation ≠ (mtextRot 45).rotation_angle ∧
    ¬ (0 ≤ (buildFromMText (mtextRot 45) 0 none).rotation ∧
        (buildFromMText (mtextRot 45) 0 none).rotation < 360) := by
  have h : (buildFromMText (mtextRot 45) 0 none).rotation = -135 := by
    show normRotation 45 = -135
    rw [normRotation, roundAbs_45]
    norm_num
  refine ⟨h, ?_, ?_⟩
  · rw [h]; show (-135 : ℚ) ≠ 45; norm_num
  · rw [h]; norm_num

/-- C3 amended: the stored rotation is 0 whenever the input rotation is
an exact integer multiple of 360 degrees (more precisely, whenever the
rounded absolute rotation is a multiple of 360), and `input − 180`
otherwise; the stored value is not confined to [0, 360). -/
theorem c3_amended :
    (∀ (k : ℤ) (m : MTextInput) (u : Nat) (c : Option String),
      m.rotation_angle = 360 * (k : ℚ) → (buildFromMText m u c).rotation = 0) ∧
    (∀ (m : MTextInput) (u : Nat) (c : Option String) (n : ℤ),
      roundAbs m.rotation_angle = n → n % 360 ≠ 0 →
      (buildFromMText m u c).rotation = m.rotation_angle - 180) := by
  constructor
  · intro k m u c h
    show normRotation m.rotation_angle = 0
    rw [h]
    exact normRotation_multiple k
  · intro m u c n h1 h2
    show normRotation m.rotation_angle = m.rotation_angle - 180
    rw [normRotation, h1, if_pos h2]

/-- C3 witness: rotation 0 (= 360·0) collapses to 0, and rotation 45
(whose rounded absolute value 45 is no multiple of 360) is stored as
45 − 180. -/
theorem c3_witness :
    (buildFromMText (mtextRot 0) 0 none).rotation = 0 ∧
    (buildFromMText (mtextRot 45) 0 none).rotation = (mtextRot 45).rotation_angle - 180 :=
  ⟨c3_amended.1 0 (mtextRot 0) 0 none (by simp [mtextRot]),
   c3_amended.2 (mtextRot 45) 0 none 45 roundAbs_45 (by decide)⟩

/-- C5: the serialized anchor of a DynamicText agrees exactly with the
spec's formulas — effective width `w` is the declared reference width
when above the 2.0 threshold and `grapheme-count · s · 0.75` otherwise,
the horizontal anchor is `x + 0.5 − s/8 − 4.05` shifted by `−w/2` for
center and `−w` for right alignment, and the vertical anchor is
`y + 0.5 − (7/5·s + 26/5) + s`. -/
theorem c5_anchor_formulas (t : DynamicText) (gc : Nat) :
    xmlTxtWidth t gc = specEffectiveWidth t.reference_rectangle_width t.font.point_size gc ∧
    xmlXPos t gc =
      specXAnchor t.x t.font.point_size
        (specEffectiveWidth t.reference_rectangle_width t.font.point_size gc)
        t.h_alignment ∧
    xmlYPos t = specYAnchor t.y t.font.point_size := by
  have hw : xmlTxtWidth t gc =
      specEffectiveWidth t.reference_rectangle_width t.font.point_size gc := by
    rw [xmlTxtWidth, specEffectiveWidth]
    split
    · rfl
    · norm_num
  refine ⟨hw, ?_, ?_⟩
  · rw [xmlXPos, ← hw]
    cases t.h_alignment <;> · show _ = _; rw [specXAnchor]; norm_num
  · rw [xmlYPos, specYAnchor]
    norm_num

/-- C5 witness: the formula identity at a concrete element (left-aligned,
point size 8, reference width 0, 3 graphemes). -/
theorem c5_witness :
    xmlTxtWidth
        { text := "abc", info_name := none, x := 10, y := 20, z := 0, rotation := 0,
          uuid := 0, h_alignment := .Left,
          font := { family := "Sans Serif", point_size := 8 }, text_from := "UserText",
          v_alignment := .Top, frame := false, text_width := -1,
          keep_visual_rotation := false, color := "#000000",
          reference_rectangle_width := 0 } 3 =
      specEffectiveWidth 0 8 3 ∧
    xmlXPos
        { text := "abc", info_name := none, x := 10, y := 20, z := 0, rotation := 0,
          uuid := 0, h_alignment := .Left,
          font := { family := "Sans Serif", point_size := 8 }, text_from := "UserText",
          v_alignment := .Top, frame := false, text_width := -1,
          keep_visual_rotation := false, color := "#000000",
          reference_rectangle_width := 0 } 3 =
      specXAnchor 10 8 (specEffectiveWidth 0 8 3) .Left ∧
    xmlYPos
        { text := "abc", info_name := none, x := 10, y := 20, z := 0, rotation := 0,
          uuid := 0, h_alignment := .Left,
          font := { family := "Sans Serif", point_size := 8 }, text_from := "UserText",
          v_alignment := .Top, frame := false, text_width := -1,
          keep_visual_rotation := false, color := "#000000",
          reference_rectangle_width := 0 } =
      specYAnchor 20 8 :=
  c5_anchor_formulas _ 3

/-- C6 counterexample: the raw text `\f ;X` contains a `\f` block, and
the substring of that block before the first `|`, trimmed, is empty —
yet the built DynamicText keeps the (nonempty) default family instead of
being overridden with the empty string, contradicting the claim that the
trimmed substring always overrides the default whenever a `\f` block is
present. -/
theorem c6_counterexample :
    firstFBlock ("\\f ;X".data) = some [' '] ∧
    trimEndsBy Char.isWhitespace ([' '].takeWhile (fun d => d != '|')) = [] ∧
    (buildFromMText fontEmptyInput 0 none).font.family = FontInfo.default.family ∧
    FontInfo.default.family ≠ "" := by
  refine ⟨by decide, by decide, by decide, by decide⟩

/-- C6 amended: the family of the first `\f` block — the part before the
first `|`, trimmed of whitespace and stray braces — overrides the
default family only when it is nonempty after trimming; otherwise (no
`\f` block, or a block with an empty trimmed prefix) the default family
is kept. On the spec's example `{\fGaramond|b0|i1|c0|p18;Sofrel}` the
produced text is `Sofrel` and the family `Garamond`. -/
theorem c6_font_family :
    ((buildFromMText garamondInput 0 none).text = "Sofrel" ∧
      (buildFromMText garamondInput 0 none).font.family = "Garamond") ∧
    (∀ (m : MTextInput) (u : Nat) (c : Option String),
      extract_mtext_font (String.join m.extended_text ++ m.text).data = none →
      (buildFromMText m u c).font.family = FontInfo.default.family) ∧
    (∀ (m : MTextInput) (u : Nat) (c : Option String) (fam : List Char),
      extract_mtext_font (String.join m.extended_text ++ m.text).data = some fam →
      fam ≠ [] ∧ (buildFromMText m u c).font.family = String.mk fam) := by
  refine ⟨⟨by decide, by decide⟩, ?_, ?_⟩
  · intro m u c h
    simp only [buildFromMText, h]
    split <;> rfl
  · intro m u c fam h
    refine ⟨extract_mtext_font_ne_nil _ fam h, ?_⟩
    simp only [buildFromMText, h]

/-- C6 witness: with no `\f` block in the raw text the default family is
kept. -/
theorem c6_witness :
    (buildFromMText plainInput 0 none).font.family = FontInfo.default.family :=
  c6_font_family.2.1 plainInput 0 none (by decide)

/-- C8 counterexample: with the default options — in particular
`info = false` — the result of `convert_dxf_file` still carries the
statistics structure, contradicting the claim that statistics are
present only when `info` is true. -/
theorem c8_counterexample :
    ConversionOptions.default.info = false ∧
    (convert_dxf_file [] ConversionOptions.default "drawing" 0 "x").stats ≠ none := by
  refine ⟨rfl, by decide⟩

/-- C8 amended: the result of `convert_dxf_file` always carries the
statistics structure (the per-kind tallies of the entity list plus the
elapsed milliseconds), regardless of the `info` flag; only the raw
markup text is conditional, present exactly when `verbose` is set. -/
theorem c8_stats_always_present (entities : List EntityKind)
    (options : ConversionOptions) (name : String) (elapsed : Nat) (xml : String) :
    (convert_dxf_file entities options name elapsed xml).stats =
      some
        { circles := countKind entities .Circle
          lines := countKind entities .Line
          arcs := countKind entities .Arc
          splines := countKind entities .Spline
          texts := countKind entities .Text
          ellipses := countKind entities .Ellipse
          polylines := countKind entities .Polyline
          lwpolylines := countKind entities .LwPolyline
          solids := countKind entities .Solid
          blocks := countKind entities .Insert
          unsupported := countKind entities .Other
          elapsed_ms := elapsed } ∧
    (convert_dxf_file entities options name elapsed xml).xml_content =
      (if options.verbose then some xml else none) :=
  ⟨rfl, rfl⟩

/-- C10: `scale(fx, fy)` multiplies `x` by `fx`, `y` by `fy`, the font
point size by `fx` (the horizontal factor), and leaves every other field
of the DynamicText unchanged. -/
theorem c10_scale_fields (t : DynamicText) (fx fy : ℚ) :
    (t.scale fx fy).x = t.x * fx ∧
    (t.scale fx fy).y = t.y * fy ∧
    (t.scale fx fy).font.point_size = t.font.point_size * fx ∧
    (t.scale fx fy).text = t.text ∧
    (t.scale fx fy).z = t.z ∧
    (t.scale fx fy).rotation = t.rotation ∧
    (t.scale fx fy).uuid = t.uuid ∧
    (t.scale fx fy).h_alignment = t.h_alignment ∧
    (t.scale fx fy).v_alignment = t.v_alignment ∧
    (t.scale fx fy).font.family = t.font.family ∧
    (t.scale fx fy).text_from = t.text_from ∧
    (t.scale fx fy).frame = t.frame ∧
    (t.scale fx fy).text_width = t.text_width ∧
    (t.scale fx fy).keep_visual_rotation = t.keep_visual_rotation ∧
    (t.scale fx fy).color = t.color ∧
    (t.scale fx fy).info_name = t.info_name ∧
    (t.scale fx fy).reference_rectangle_width = t.reference_rectangle_width :=
  ⟨rfl, rfl, rfl, rfl, rfl, rfl, rfl, rfl, rfl, rfl, rfl, rfl, rfl, rfl, rfl, rfl, rfl⟩

end Dxf2Elmt
